import Mathlib

/-!
Verification of the CoffeeCleaner disk-cleaner core against its
natural-language specification.

The Python source is shallowly embedded: paths are lists of characters,
the process-wide caches and the configuration singleton are explicit
parameters and return values, filesystem and AI-provider effects are
supplied as oracles.  All definitions are executable.
-/

namespace CoffeeCleaner

/-! ## Character-list string helpers

These model the Python string operations the source uses
(substring test, endswith, lower, split, strip, basename). -/

/-- Test whether the first list is an initial segment of the second
(models Python str.startswith at the character level). -/
def beginsWith : List Char → List Char → Bool
  | [], _ => true
  | _ :: _, [] => false
  | a :: as, b :: bs => a == b && beginsWith as bs

/-- Substring containment, models the Python `needle in haystack` test. -/
def containsSub : List Char → List Char → Bool
  | needle, [] => needle.isEmpty
  | needle, c :: rest => beginsWith needle (c :: rest) || containsSub needle rest

/-- Suffix test, models Python str.endswith. -/
def endsWithL (suffix s : List Char) : Bool :=
  beginsWith suffix.reverse s.reverse

/-- Lower-casing, models Python str.lower on the ASCII inputs the code uses. -/
def lowerL (s : List Char) : List Char :=
  s.map Char.toLower

/-- Split on a separator character, keeping empty components, exactly as
Python str.split with an explicit separator does. -/
def splitOnChar (sep : Char) : List Char → List (List Char)
  | [] => [[]]
  | c :: rest =>
    let r := splitOnChar sep rest
    if c == sep then [] :: r
    else
      match r with
      | [] => [[c]]
      | comp :: comps => (c :: comp) :: comps

/-- Join components with a separator character, models Python sep.join. -/
def joinWith (sep : Char) : List (List Char) → List Char
  | [] => []
  | [comp] => comp
  | comp :: comps => comp ++ sep :: joinWith sep comps

/-- Python whitespace predicate used by str.strip. -/
def isPySpace (c : Char) : Bool :=
  c == ' ' || c == '\t' || c == '\n' || c == '\r' || c == '\x0b' || c == '\x0c'

/-- Models Python str.strip (remove leading and trailing whitespace). -/
def pyStrip (s : List Char) : List Char :=
  ((s.dropWhile isPySpace).reverse.dropWhile isPySpace).reverse

/-- Models posixpath.basename: everything after the last slash. -/
def pyBasename (s : List Char) : List Char :=
  (s.reverse.takeWhile (fun c => c != '/')).reverse

/-! ## fnmatch

The source classifies paths with fnmatch.fnmatch, whose patterns here use
only literal characters, the any-sequence wildcard and the any-character
wildcard; on POSIX the case normalisation is the identity. -/

/-- Fuelled worker for glob matching: every recursive call shrinks the
combined length of pattern and subject, so any fuel above that sum makes
the zero-fuel branch unreachable. -/
def globMatchFuel : Nat → List Char → List Char → Bool
  | 0, _, _ => false
  | fuel + 1, pat, s =>
    match pat, s with
    | [], [] => true
    | [], _ :: _ => false
    | '*' :: ps, [] => globMatchFuel fuel ps []
    | '*' :: ps, c :: cs =>
      globMatchFuel fuel ps (c :: cs) || globMatchFuel fuel ('*' :: ps) cs
    | '?' :: ps, _ :: cs => globMatchFuel fuel ps cs
    | _ :: _, [] => false
    | p :: ps, c :: cs => p == c && globMatchFuel fuel ps cs

/-- Glob matching as fnmatch.fnmatchcase implements it for the patterns the
rule table contains: the star matches any sequence of characters (slashes
included), the question mark matches exactly one character, and every other
pattern character must match literally.  The fuel bound exceeds the largest
possible number of recursion steps. -/
def globMatch (pat s : List Char) : Bool :=
  globMatchFuel (pat.length + s.length + 1) pat s

/-! ## Path normalisation

safety_analysis.normalize_path is os.path.normpath composed with
os.path.expanduser; both platform functions are embedded following the
CPython posixpath implementation. -/

/-- Models posixpath.expanduser for the forms the program uses: a path
starting with a bare tilde has the tilde replaced by the home directory
(stripped of trailing slashes, with a lone slash as the empty-result
fallback).  A tilde followed by a user name would consult the user
database; no user database is modelled, so that form is returned
unchanged, exactly as CPython does for an unknown user.  Paths not
starting with a tilde are returned unchanged. -/
def expanduser (home : List Char) (path : List Char) : List Char :=
  match path with
  | [] => []
  | c :: rest =>
    if c != '~' then c :: rest
    else
      let user := rest.takeWhile (fun x => x != '/')
      let tail := rest.dropWhile (fun x => x != '/')
      if user.isEmpty then
        let userhome := (home.reverse.dropWhile (fun x => x == '/')).reverse
        match userhome ++ tail with
        | [] => ['/']
        | r => r
      else c :: rest

/-- One step of the posixpath.normpath component loop: skip empty and
single-dot components, pop on a double-dot where possible, append
otherwise. -/
def normpathStep (initialSlashes : Nat) (acc : List (List Char)) (comp : List Char) :
    List (List Char) :=
  if comp.isEmpty || comp == ['.'] then acc
  else if comp != ['.', '.'] || (initialSlashes == 0 && acc.isEmpty)
      || (!acc.isEmpty && acc.getLast? == some ['.', '.']) then
    acc ++ [comp]
  else if !acc.isEmpty then acc.dropLast
  else acc

/-- Models posixpath.normpath: collapse duplicate slashes and single dots,
resolve double dots lexically, preserve the special double-initial-slash
form, and map the empty result to a single dot. -/
def normpath (path : List Char) : List Char :=
  if path.isEmpty then ['.']
  else
    let initialSlashes : Nat :=
      if beginsWith ['/'] path then
        if beginsWith ['/', '/'] path && !beginsWith ['/', '/', '/'] path then 2 else 1
      else 0
    let comps := splitOnChar '/' path
    let newComps := comps.foldl (normpathStep initialSlashes) []
    let joined := List.replicate initialSlashes '/' ++ joinWith '/' newComps
    if joined.isEmpty then ['.'] else joined

/-- safety_analysis.normalize_path: expand the home marker, then collapse
the path.  The home directory is an explicit parameter standing for the
process environment. -/
def normalize_path (home : List Char) (path : List Char) : List Char :=
  normpath (expanduser home path)

/-! ## Safety data model -/

/-- Result of a safety assessment, the dict with keys safety and reason that
safety_analysis.py produces and caches. -/
structure SafetyInfo where
  safety : String
  reason : String
deriving DecidableEq, Repr

/-- Association-list model of a Python dict lookup (dict.get). -/
def dictGet {κ α : Type} [BEq κ] : List (κ × α) → κ → Option α
  | [], _ => none
  | (k, v) :: rest, key => if k == key then some v else dictGet rest key

/-- Association-list model of Python dict assignment: an existing key keeps
its position and gets the new value, a new key is appended, preserving the
insertion order that Python dicts guarantee. -/
def dictInsert {κ α : Type} [BEq κ] (m : List (κ × α)) (key : κ) (v : α) : List (κ × α) :=
  if m.any (fun p => p.1 == key) then
    m.map (fun p => if p.1 == key then (key, v) else p)
  else m ++ [(key, v)]

set_option maxHeartbeats 2000000 in
/-- config.PREDEFINED_RULES, in the insertion order of the dict literal. -/
def PREDEFINED_RULES : List (String × SafetyInfo) := [
  ("~/Library/Caches/*",
    ⟨"green", "Application cache files. Generally safe to delete."⟩),
  ("~/Library/Caches/com.apple.Safari/*",
    ⟨"green", "Safari browser cache. Safe to delete, will be regenerated."⟩),
  ("~/Library/Caches/com.google.Chrome/*",
    ⟨"green", "Chrome browser cache. Safe to delete, will be regenerated."⟩),
  ("~/Library/Caches/com.mozilla.firefox/*",
    ⟨"green", "Firefox browser cache. Safe to delete, will be regenerated."⟩),
  ("/System/Library/Caches/*",
    ⟨"green", "System cache files. Safe to delete, macOS will regenerate as needed."⟩),
  ("/private/var/folders/*/C/*",
    ⟨"green", "Temporary cache files. Safe to delete."⟩),
  ("/tmp/*",
    ⟨"green", "Temporary files. Safe to delete."⟩),
  ("~/Library/Application Support/*/Temp/*",
    ⟨"green", "Application temporary files. Safe to delete."⟩),
  ("~/Downloads/*",
    ⟨"green", "User-downloaded files. User should verify before deleting."⟩),
  ("~/Desktop/*",
    ⟨"green", "User desktop files. User should verify before deleting."⟩),
  ("~/.Trash/*",
    ⟨"green", "Items in trash. Safe to delete permanently."⟩),
  ("/private/var/log/*",
    ⟨"green", "System log files. Generally safe to delete but useful for troubleshooting."⟩),
  ("~/Library/Logs/*",
    ⟨"green", "User application logs. Generally safe to delete."⟩),
  ("~/Library/Safari/Downloads.plist",
    ⟨"green", "Safari downloads list. Safe to delete."⟩),
  ("~/Library/Safari/History.db*",
    ⟨"green", "Safari browsing history. Safe to delete if you don\x27t need history."⟩),
  ("~/Library/Application Support/MobileSync/Backup/*",
    ⟨"orange", "iOS device backups. Safe to delete if you have recent cloud backups, but deletion is permanent."⟩),
  ("~/Documents/*",
    ⟨"orange", "User documents. Important files - be careful when deleting."⟩),
  ("~/Pictures/*",
    ⟨"orange", "User photos and images. Important files - be careful when deleting."⟩),
  ("~/Movies/*",
    ⟨"orange", "User videos. Important files - be careful when deleting."⟩),
  ("~/Music/*",
    ⟨"orange", "User music files. Important files - be careful when deleting."⟩),
  ("~/Library/*",
    ⟨"orange", "Contains important user settings and data. Be very careful."⟩),
  ("~/Library/Preferences/*",
    ⟨"orange", "Application preferences. Deleting may reset app settings."⟩),
  ("~/Library/Application Support/*",
    ⟨"orange", "Application support files and user data. May contain important information."⟩),
  ("~/Library/Keychains/*",
    ⟨"orange", "Keychain files containing passwords and certificates. Be very careful."⟩),
  ("~/Library/Mail/*",
    ⟨"orange", "Mail data and settings. Deleting will remove email data."⟩),
  ("~/Library/Calendars/*",
    ⟨"orange", "Calendar data. Deleting will remove calendar events."⟩),
  ("~/Library/Contacts/*",
    ⟨"orange", "Contact data. Deleting will remove address book entries."⟩),
  ("/usr/local/*",
    ⟨"orange", "User-installed software and libraries. May be safe to delete specific items."⟩),
  ("/opt/*",
    ⟨"orange", "Third-party software installations. Check before deleting."⟩),
  ("/var/db/*",
    ⟨"orange", "System databases. Some files may be safe to delete, others are critical."⟩),
  ("/var/log/*",
    ⟨"orange", "System log files. Generally safe but useful for troubleshooting."⟩),
  ("/var/tmp/*",
    ⟨"orange", "Temporary files that persist across reboots. Usually safe but check contents."⟩),
  ("/System/*",
    ⟨"red", "Critical macOS system files. Do not delete."⟩),
  ("/Library/*",
    ⟨"red", "System library files. Critical for macOS operation."⟩),
  ("/bin/*",
    ⟨"red", "Essential system binaries. Do not delete."⟩),
  ("/sbin/*",
    ⟨"red", "System administration binaries. Do not delete."⟩),
  ("/usr/bin/*",
    ⟨"red", "User system binaries. Do not delete."⟩),
  ("/usr/sbin/*",
    ⟨"red", "User system administration binaries. Do not delete."⟩),
  ("/usr/lib/*",
    ⟨"red", "System libraries. Do not delete."⟩),
  ("/usr/libexec/*",
    ⟨"red", "System executables. Do not delete."⟩),
  ("/usr/share/*",
    ⟨"red", "System shared files. Do not delete."⟩),
  ("/boot/*",
    ⟨"red", "Boot files. Do not delete."⟩),
  ("/etc/*",
    ⟨"red", "System configuration files. Do not delete."⟩),
  ("/dev/*",
    ⟨"red", "Device files. Do not delete."⟩),
  ("/proc/*",
    ⟨"red", "Process information. Do not delete."⟩),
  ("/Applications/*",
    ⟨"red", "Installed applications. Do not delete this folder directly."⟩),
  ("/Applications/Utilities/*",
    ⟨"red", "System utility applications. Do not delete."⟩),
  ("/var/root/*",
    ⟨"red", "Root user directory. Do not delete."⟩),
  ("/var/vm/*",
    ⟨"red", "Virtual memory files. Do not delete."⟩),
  ("/var/run/*",
    ⟨"red", "Runtime system files. Do not delete."⟩),
  ("/var/spool/*",
    ⟨"red", "System spool files. Do not delete."⟩),
  ("~/Library/Keychains/login.keychain*",
    ⟨"red", "Main user keychain. Contains all saved passwords. Do not delete."⟩),
  ("~/Library/Preferences/com.apple.loginwindow.plist",
    ⟨"red", "Login window preferences. Critical for user login."⟩),
  ("*.tmp",
    ⟨"green", "Temporary file. Generally safe to delete."⟩),
  ("*.cache",
    ⟨"green", "Cache file. Safe to delete, will be regenerated if needed."⟩),
  ("*.log",
    ⟨"green", "Log file. Generally safe to delete but useful for troubleshooting."⟩),
  ("*/.DS_Store",
    ⟨"green", "macOS folder view settings. Safe to delete, will be regenerated."⟩),
  ("*/Thumbs.db",
    ⟨"green", "Windows thumbnail cache. Safe to delete on macOS."⟩),
  ("*.doc", ⟨"orange", "Document file. User should verify before deleting."⟩),
  ("*.docx", ⟨"orange", "Document file. User should verify before deleting."⟩),
  ("*.pdf", ⟨"orange", "PDF document. User should verify before deleting."⟩),
  ("*.txt", ⟨"orange", "Text file. User should verify before deleting."⟩),
  ("*.rtf", ⟨"orange", "Rich text file. User should verify before deleting."⟩),
  ("*.jpg", ⟨"orange", "Image file. User should verify before deleting."⟩),
  ("*.jpeg", ⟨"orange", "Image file. User should verify before deleting."⟩),
  ("*.png", ⟨"orange", "Image file. User should verify before deleting."⟩),
  ("*.gif", ⟨"orange", "Image file. User should verify before deleting."⟩),
  ("*.mp4", ⟨"orange", "Video file. User should verify before deleting."⟩),
  ("*.mov", ⟨"orange", "Video file. User should verify before deleting."⟩),
  ("*.mp3", ⟨"orange", "Audio file. User should verify before deleting."⟩),
  ("*.wav", ⟨"orange", "Audio file. User should verify before deleting."⟩),
  ("*.dylib",
    ⟨"red", "Dynamic library. Critical for application operation. Do not delete."⟩),
  ("*.framework/*",
    ⟨"red", "macOS framework. Critical for system/application operation. Do not delete."⟩),
  ("*.kext/*",
    ⟨"red", "Kernel extension. Critical system component. Do not delete."⟩),
  ("*.app/*",
    ⟨"red", "Application bundle. Deleting will remove the entire application."⟩),
  ("*/Contents/MacOS/*",
    ⟨"red", "Application executable. Critical for application operation."⟩)]

/-- The key/value configuration state held by the ConfigManager singleton
(config_manager.py), with the fields the classification code reads. -/
structure ConfigState where
  gemini_api_key : String
  openai_api_key : String
  preferred_ai_provider : String
  enable_ai_analysis : Bool
  cache_ai_results : Bool
deriving DecidableEq, Repr

/-- The persisted classification cache, keyed by normalised path. -/
abbrev AnalysisCache : Type := List (List Char × SafetyInfo)

/-- ConfigManager.get_cached_analysis: the lookup is answered only when
the cache_ai_results setting is on. -/
def get_cached_analysis (cfg : ConfigState) (cache : AnalysisCache) (path : List Char) :
    Option SafetyInfo :=
  if cfg.cache_ai_results then dictGet cache path else none

/-- ConfigManager.cache_analysis: the write happens only when the
cache_ai_results setting is on (the file save is an external effect and is
not modelled). -/
def cache_analysis (cfg : ConfigState) (cache : AnalysisCache) (path : List Char)
    (result : SafetyInfo) : AnalysisCache :=
  if cfg.cache_ai_results then dictInsert cache path result else cache

/-- safety_analysis.get_safety_info: normalise, answer from the cache when
present, otherwise return the info of the first rule in PREDEFINED_RULES
insertion order whose normalised pattern matches, otherwise a grey
placeholder verdict. -/
def get_safety_info (home : List Char) (cfg : ConfigState) (cache : AnalysisCache)
    (path : List Char) : SafetyInfo :=
  let normalized := normalize_path home path
  match get_cached_analysis cfg cache normalized with
  | some cached => cached
  | none =>
    match PREDEFINED_RULES.find?
        (fun rule => globMatch (normalize_path home rule.1.data) normalized) with
    | some rule => rule.2
    | none => ⟨"grey", "Safety level unknown. Click AI icon for analysis."⟩

/-! ## Spec-side overlap policy (for comparison only)

The spec mandates a different overlap policy than the source implements;
the following two definitions transcribe the spec wording so the two can be
compared. -/

/-- Length of the literal lead of a pattern: the characters before the
first wildcard (star, question mark or character-class opener). -/
def literalLeadLen (pat : List Char) : Nat :=
  (pat.takeWhile (fun c => !(c == '*' || c == '?' || c == '['))).length

/-- Follows the spec wording, not the source: among all rules whose
normalised pattern matches the normalised path, return the info of the one
whose pattern has the longest non-wildcard literal lead (most-specific
match wins). -/
def specMostSpecificVerdict (home : List Char) (path : List Char) : Option SafetyInfo :=
  let normalized := normalize_path home path
  let matching := PREDEFINED_RULES.filter
    (fun rule => globMatch (normalize_path home rule.1.data) normalized)
  (matching.foldl (fun best rule =>
    match best with
    | none => some rule
    | some b =>
      if literalLeadLen (normalize_path home rule.1.data) >
          literalLeadLen (normalize_path home b.1.data) then some rule else some b)
    none).map (fun rule => rule.2)

/-! ## Heuristic fallback classifier -/

/-- The safe-name keyword group of _fallback_heuristic_analysis. -/
def safe_patterns : List String :=
  ["cache", "temp", "tmp", "log", ".ds_store", "thumbs.db", ".localized",
   "desktop.ini", "icon\r"]

/-- The safe-extension group of _fallback_heuristic_analysis. -/
def safe_extensions : List String :=
  [".tmp", ".cache", ".log", ".bak", ".old", ".orig"]

/-- The caution keyword group of _fallback_heuristic_analysis. -/
def caution_patterns : List String :=
  ["config", "pref", "setting", "preference", "profile"]

/-- The danger keyword group of _fallback_heuristic_analysis. -/
def danger_patterns : List String :=
  ["system", "kernel", "driver", "boot", "recovery", "firmware"]

/-- safety_analysis._fallback_heuristic_analysis: score the lower-cased base
name against the keyword and extension groups in their textual order and
return the first group's verdict, defaulting to caution. -/
def fallback_heuristic_analysis (path : List Char) : SafetyInfo :=
  let basename := lowerL (pyBasename path)
  if safe_patterns.any (fun pat => containsSub pat.data basename) then
    ⟨"green",
     "Heuristic Analysis: Appears to be temporary/cache files. Likely safe to delete. Add an API Key in Settings for AI analysis"⟩
  else if safe_extensions.any (fun ext => endsWithL ext.data basename) then
    ⟨"green",
     "Heuristic Analysis: Temporary file extension. Likely safe to delete. Add an API Key in Settings for AI analysis"⟩
  else if caution_patterns.any (fun pat => containsSub pat.data basename) then
    ⟨"orange",
     "Heuristic Analysis: Configuration or preference files. Deleting may affect application behavior. Add an API Key in Settings for AI analysis"⟩
  else if danger_patterns.any (fun pat => containsSub pat.data basename) then
    ⟨"red",
     "Heuristic Analysis: System-related files. Not recommended for deletion. Add an API Key in Settings for AI analysis"⟩
  else
    ⟨"orange",
     "Heuristic Analysis: Unknown file type. Exercise caution when deleting. Add an API Key in Settings for AI analysis"⟩

/-! ## AI-assisted classification

The external provider boundary is an oracle: each potential provider call
is given an outcome, either a failure (network or API exception, or a
response whose text does not parse as JSON) or a parsed JSON value,
modelled by whether it is a dict and which of the two expected keys it
carries.  Process-level import availability of the two client libraries is
a pair of booleans. -/

/-- Outcome of one provider call, after the markdown stripping and JSON
parsing step: a failure, or a parsed value described by whether it is a
dict and by its safety and reason entries when present. -/
inductive ProviderResult where
  | failure
  | parsed (isDict : Bool) (safetyVal : Option String) (reasonVal : Option String)
deriving DecidableEq, Repr

/-- Which AI client libraries imported successfully (GEMINI_AVAILABLE and
OPENAI_AVAILABLE in safety_analysis.py). -/
structure AIAvail where
  gemini : Bool
  openai : Bool
deriving DecidableEq, Repr

/-- config.AI_CONFIG: static AI configuration constants. -/
structure AIConfigData where
  enabled : Bool
  provider : String
  model : String
  timeout : Nat
  max_retries : Nat
  fallback_to_heuristic : Bool
deriving DecidableEq, Repr

/-- The AI_CONFIG literal from config.py. -/
def AI_CONFIG : AIConfigData :=
  { enabled := true, provider := "gemini", model := "gemini-1.5-flash",
    timeout := 10, max_retries := 3, fallback_to_heuristic := true }

/-- Shared response handling of _analyze_with_gemini and
_analyze_with_openai: a parsed response passes validation exactly when it
is a dict that contains both a safety key and a reason key; a valid
response is returned with the AI prefix on its reason, anything else
raises, modelled as the error case. -/
def validate_ai_response (resp : ProviderResult) : Except Unit SafetyInfo :=
  match resp with
  | .failure => .error ()
  | .parsed isDict safetyVal reasonVal =>
    if !isDict then .error ()
    else
      match safetyVal, reasonVal with
      | some s, some r => .ok ⟨s, "AI Analysis: " ++ r⟩
      | _, _ => .error ()

/-- safety_analysis._analyze_with_gemini: raise when the library is
unavailable or no key is configured, otherwise make one provider call and
validate it.  The second component counts provider calls. -/
def analyze_with_gemini (cfg : ConfigState) (avail : AIAvail)
    (callOutcome : ProviderResult) : Except Unit SafetyInfo × Nat :=
  if !avail.gemini then (.error (), 0)
  else if cfg.gemini_api_key == "" then (.error (), 0)
  else (validate_ai_response callOutcome, 1)

/-- safety_analysis._analyze_with_openai, same structure as the Gemini
variant. -/
def analyze_with_openai (cfg : ConfigState) (avail : AIAvail)
    (callOutcome : ProviderResult) : Except Unit SafetyInfo × Nat :=
  if !avail.openai then (.error (), 0)
  else if cfg.openai_api_key == "" then (.error (), 0)
  else (validate_ai_response callOutcome, 1)

/-- Result of ai_analyze_path: the verdict returned to the caller, the
classification cache after the call, and the number of provider calls
made. -/
structure AIAnalyzeResult where
  result : SafetyInfo
  cache : AnalysisCache
  providerCalls : Nat
deriving DecidableEq, Repr

/-- The try block of ai_analyze_path: re-read the preferred provider
(ignoring any forced one, as the source does on line 104), dispatch to the
matching available client, or produce the heuristic verdict directly when
no client is available.  The heuristic result of the unavailable-provider
branch flows on to the caching step exactly like an AI result. -/
def ai_try_block (cfg : ConfigState) (avail : AIAvail)
    (callOutcomes : Nat → ProviderResult) (normalized : List Char) :
    Except Unit SafetyInfo × Nat :=
  let providerInTry := cfg.preferred_ai_provider
  if providerInTry == "gemini" && avail.gemini then
    analyze_with_gemini cfg avail (callOutcomes 0)
  else if providerInTry == "openai" && avail.openai then
    analyze_with_openai cfg avail (callOutcomes 0)
  else (.ok (fallback_heuristic_analysis normalized), 0)

/-- safety_analysis.ai_analyze_path.  In source order: answer from the
cache unless a provider is forced; resolve the provider (forced or
preferred); with no forcing and AI analysis disabled, fall back to the
heuristic; with a missing or blank key, fall back (or, when forced, return
a grey error verdict); otherwise run the try block, cache its result and
return it; any exception inside the try block is answered with the
uncached heuristic fallback.  The outcome of the single potential provider
call is callOutcomes 0; later entries exist only to express that no retry
ever consults them. -/
def ai_analyze_path (home : List Char) (cfg : ConfigState) (avail : AIAvail)
    (callOutcomes : Nat → ProviderResult) (cache : AnalysisCache)
    (path : List Char) (force_provider : Option String) : AIAnalyzeResult :=
  let normalized := normalize_path home path
  let cached := if force_provider.isNone
    then get_cached_analysis cfg cache normalized else none
  match cached with
  | some r => ⟨r, cache, 0⟩
  | none =>
    let provider := force_provider.getD cfg.preferred_ai_provider
    if force_provider.isNone && !cfg.enable_ai_analysis then
      ⟨fallback_heuristic_analysis normalized, cache, 0⟩
    else
      let api_key :=
        if provider == "gemini" then cfg.gemini_api_key
        else if provider == "openai" then cfg.openai_api_key
        else ""
      if api_key == "" || pyStrip api_key.data == [] then
        if force_provider.isNone then
          ⟨fallback_heuristic_analysis normalized, cache, 0⟩
        else
          ⟨⟨"grey", "Error: No valid " ++ provider ++ " API key"⟩, cache, 0⟩
      else
        match ai_try_block cfg avail callOutcomes normalized with
        | (.ok result, calls) =>
          ⟨result, cache_analysis cfg cache normalized result, calls⟩
        | (.error _, calls) =>
          ⟨fallback_heuristic_analysis normalized, cache, calls⟩

/-- The blank-credential test of ai_analyze_path in the un-forced call,
where the provider under test is the preferred one: its key is missing or
whitespace-only (the not-api_key-or-not-api_key-strip check of the
source, with the absent key of an unknown provider read as empty). -/
def preferred_key_blank (cfg : ConfigState) : Bool :=
  let api_key :=
    if cfg.preferred_ai_provider == "gemini" then cfg.gemini_api_key
    else if cfg.preferred_ai_provider == "openai" then cfg.openai_api_key
    else ""
  api_key == "" || pyStrip api_key.data == []

/-! ## Deletion gate and executor

A row of the scan-results list is modelled by its checkbox state and the
path held in the control's data field; controls without a checkbox or data
are skipped by the source loops and are not modelled.  The filesystem is a
list of existing paths, and per-path deletion failure (permission error,
vanished file) is an oracle predicate. -/

/-- The selection pass shared by main.simple_delete_selected_handler and
deletion.delete_selected_items: walk the rows in order and collect, for
each checked row, the path and the safety tier that get_safety_info
reports for it. -/
def collect_selected (home : List Char) (cfg : ConfigState) (cache : AnalysisCache) :
    List (Bool × String) → List (String × String)
  | [] => []
  | (checked, path) :: rest =>
    let tail := collect_selected home cfg cache rest
    if checked then
      (path, (get_safety_info home cfg cache path.data).safety) :: tail
    else tail

/-- The unsafe-path list the same loop accumulates: the paths of the
selected items whose tier is red, in selection order. -/
def collect_unsafe_items (selected_items : List (String × String)) : List String :=
  (selected_items.filter (fun it => it.2 == "red")).map (fun it => it.1)

/-- Decision of the deletion gate: nothing selected, batch rejected with
the offending paths, or batch handed to the confirmation step. -/
inductive DeleteDecision where
  | noSelection
  | rejected (blockedPaths : List String)
  | confirmed (selected_items : List (String × String))
deriving DecidableEq, Repr

/-- main.simple_delete_selected_handler up to its effect: collect the
selected items and the red ones among them; with no selection, stop; with
any red item, reject the whole batch carrying every red path; otherwise
hand the batch to the confirmation step (deletion.delete_selected_items
has the identical structure, with a dialog instead of a status line). -/
def simple_delete_selected_handler (home : List Char) (cfg : ConfigState)
    (cache : AnalysisCache) (rows : List (Bool × String)) : DeleteDecision :=
  let selected_items := collect_selected home cfg cache rows
  let unsafe_items := collect_unsafe_items selected_items
  if selected_items.isEmpty then .noSelection
  else if !unsafe_items.isEmpty then .rejected unsafe_items
  else .confirmed selected_items

/-- Effect of one successful deletion attempt on the filesystem: the path
itself disappears and, as shutil.rmtree does for a directory, everything
below it. -/
def rmtree_or_remove (fs : List String) (path : String) : List String :=
  fs.filter (fun q => !(q == path || beginsWith (path.data ++ ['/']) q.data))

/-- Result of main.perform_deletion: the filesystem afterwards, the two
counters and the per-path result messages. -/
structure DeletionOutcome where
  fs : List String
  deleted_count : Nat
  error_count : Nat
  deletion_results : List String
deriving DecidableEq, Repr

/-- The body of the per-item loop of main.perform_deletion, carried over
the accumulated outcome: a success removes the path (rmtree for
directories, remove for files) and records a success message, a failure
records a failure message; exactly one counter is bumped per item and a
failure never stops the loop. -/
def perform_deletion_loop (delFails : String → Bool) :
    DeletionOutcome → List (String × String) → DeletionOutcome
  | st, [] => st
  | st, item :: rest =>
    perform_deletion_loop delFails
      (if delFails item.1 then
        { st with
          error_count := st.error_count + 1,
          deletion_results := st.deletion_results ++
            ["✗ Failed to delete " ++ String.mk (pyBasename item.1.data)] }
      else
        { st with
          fs := rmtree_or_remove st.fs item.1,
          deleted_count := st.deleted_count + 1,
          deletion_results := st.deletion_results ++
            ["✓ Deleted: " ++ String.mk (pyBasename item.1.data)] })
      rest

/-- main.perform_deletion: attempt every selected item independently.
The failure oracle stands for the per-item exception; the source
interpolates the exception text into the failure message, which is not
modelled. -/
def perform_deletion (delFails : String → Bool) (fs : List String)
    (selected_items : List (String × String)) : DeletionOutcome :=
  perform_deletion_loop delFails ⟨fs, 0, 0, []⟩ selected_items

/-- End-to-end view of one click of the delete button: the gate decision,
the filesystem afterwards, the counters, and whether perform_deletion ran.
perform_deletion is reached only through the confirmed decision and the
user's confirmation, exactly as simple_delete_selected_handler hands off
to show_confirmation_ui. -/
structure DeleteFlowResult where
  decision : DeleteDecision
  fs : List String
  deleted_count : Nat
  error_count : Nat
  deletionRan : Bool
deriving DecidableEq, Repr

/-- The composed handler flow of main.py: gate first, then, only for a
confirmed batch the user approves, perform_deletion. -/
def delete_selected_flow (home : List Char) (cfg : ConfigState) (cache : AnalysisCache)
    (rows : List (Bool × String)) (fs : List String) (delFails : String → Bool)
    (userConfirms : Bool) : DeleteFlowResult :=
  match simple_delete_selected_handler home cfg cache rows with
  | .noSelection => ⟨.noSelection, fs, 0, 0, false⟩
  | .rejected blocked => ⟨.rejected blocked, fs, 0, 0, false⟩
  | .confirmed items =>
    if userConfirms then
      let out := perform_deletion delFails fs items
      ⟨.confirmed items, out.fs, out.deleted_count, out.error_count, true⟩
    else ⟨.confirmed items, fs, 0, 0, false⟩

/-! ## Directory scanner -/

/-- A filesystem entry as the scanner distinguishes them: a regular file
with its byte size, a directory with named children, or a symbolic link
carrying the stat size of its target (which os.path.getsize reports,
since stat follows links). -/
inductive FSNode where
  | file (size : Nat)
  | dir (children : List (String × FSNode))
  | symlink (targetSize : Nat)
deriving Repr

mutual

/-- The os.walk file-size accumulation of get_size_threaded over a
directory subtree: regular files contribute their size, symbolic links are
skipped entirely by the islink check (and symlinked directories are not
descended), directories recurse. -/
def walk_file_sum : FSNode → Nat
  | .file n => n
  | .symlink _ => 0
  | .dir children => walk_children_sum children

/-- Companion of walk_file_sum over child lists. -/
def walk_children_sum : List (String × FSNode) → Nat
  | [] => 0
  | (_, node) :: rest => walk_file_sum node + walk_children_sum rest

end

/-- One row of a scan result: the dict with keys path, size, is_dir that
get_size_threaded builds. -/
structure ScanEntry where
  path : String
  size : Nat
  is_dir : Bool
deriving DecidableEq, Repr

/-- The is_dir attribute os.scandir reports with follow_symlinks False:
true for a real directory only. -/
def entryIsDir : FSNode → Bool
  | .dir _ => true
  | _ => false

/-- The size main.get_size_threaded computes for one listed child: a
directory gets its os.walk file sum; anything else goes through
os.path.getsize, which follows a symbolic link to its target. -/
def entry_size : FSNode → Nat
  | .file n => n
  | .dir children => walk_children_sum children
  | .symlink targetSize => targetSize

/-- main.get_size_threaded as one worker task.  cancelObserved is true
when any of the task's cooperative cancellation checks (on entry or at a
directory level of the walk) saw the flag set, in which case the task
returns no result and its partial sum is discarded.  accessErr is true
when the size computation raised an OSError, in which case the task
reports size zero. -/
def get_size_threaded (cancelObserved : Bool) (accessErr : Bool)
    (name : String) (node : FSNode) : Option ScanEntry :=
  if cancelObserved then none
  else if accessErr then some ⟨name, 0, entryIsDir node⟩
  else some ⟨name, entry_size node, entryIsDir node⟩

/-- main.MAX_CACHE_SIZE. -/
def MAX_CACHE_SIZE : Nat := 50

/-- main.manage_cache: when the directory cache has grown beyond the
capacity, drop the ten entries that entered it first (Python dicts
enumerate keys in insertion order, so the first ten keys are the ten
oldest). -/
def manage_cache {α : Type} (cache : List (String × α)) : List (String × α) :=
  if cache.length > MAX_CACHE_SIZE then cache.drop 10 else cache

/-- The cache write a completing scan performs: the dict assignment
directory_cache of selected_path followed by the manage_cache trim. -/
def cache_scan_result {α : Type} (cache : List (String × α)) (selected_path : String)
    (results : α) : List (String × α) :=
  manage_cache (dictInsert cache selected_path results)

/-- Stable descending insertion by size: the new element passes every
earlier element of equal or larger size, which reproduces the Python
stable sort with reverse True used on scan results. -/
def insertDesc (x : ScanEntry) : List ScanEntry → List ScanEntry
  | [] => [x]
  | y :: ys => if x.size > y.size then x :: y :: ys else y :: insertDesc x ys

/-- results.sort with size key and reverse True: stable descending. -/
def sortBySizeDesc (entries : List ScanEntry) : List ScanEntry :=
  entries.foldl (fun acc x => insertDesc x acc) []

/-- main.scan_directory_thread after a successful listing.  children is
the os.scandir listing in listing order; each task i gets its cancellation
observation and access-error oracle; loopBreakAt is the first main-loop
iteration at which the collection loop saw the cancellation flag (none if
never), after which remaining futures are cancelled and unread;
finalCancelled is the flag value at the final check.  On a non-cancelled
completion the sorted results are returned and cached (with eviction);
on cancellation nothing is returned and the cache is untouched. -/
def scan_directory_thread (children : List (String × FSNode))
    (taskCancelled : Nat → Bool) (taskAccessErr : Nat → Bool)
    (loopBreakAt : Option Nat) (finalCancelled : Bool)
    (cache : List (String × List ScanEntry)) (selected_path : String) :
    Option (List ScanEntry) × List (String × List ScanEntry) :=
  let consumed := match loopBreakAt with
    | none => children.length
    | some i => min i children.length
  let results := (children.enum.take consumed).filterMap
    (fun p => get_size_threaded (taskCancelled p.1) (taskAccessErr p.1) p.2.1 p.2.2)
  if finalCancelled then (none, cache)
  else
    let sorted := sortBySizeDesc results
    (some sorted, cache_scan_result cache selected_path sorted)

/-! ## General lemmas -/

/-- A list with a member is not empty. -/
theorem isEmpty_false_of_mem {α : Type} {a : α} {l : List α} (h : a ∈ l) :
    l.isEmpty = false := by
  cases l with
  | nil => cases h
  | cons _ _ => rfl

/-- A checked row surfaces in the selection pass together with the safety
tier its path classifies to. -/
theorem mem_collect_selected {home : List Char} {cfg : ConfigState}
    {cache : AnalysisCache} {rows : List (Bool × String)} {p : String}
    (h : (true, p) ∈ rows) :
    (p, (get_safety_info home cfg cache p.data).safety) ∈
      collect_selected home cfg cache rows := by
  induction rows with
  | nil => cases h
  | cons row rest ih =>
    rcases List.mem_cons.mp h with h1 | h1
    · rw [← h1]
      simp [collect_selected]
    · cases row with
      | mk checked path =>
        by_cases hc : checked
        · subst hc
          exact List.mem_cons_of_mem _ (ih h1)
        · simp only [Bool.not_eq_true] at hc
          simpa [collect_selected, hc] using ih h1

/-- A selected item with a red tier surfaces in the unsafe list. -/
theorem mem_collect_unsafe_items {selected_items : List (String × String)} {p : String}
    (h : (p, "red") ∈ selected_items) : p ∈ collect_unsafe_items selected_items := by
  unfold collect_unsafe_items
  exact List.mem_map.mpr ⟨(p, "red"), List.mem_filter.mpr ⟨h, by simp⟩, rfl⟩

/-- With at least one checked red row, the gate rejects the batch carrying
the unsafe list. -/
theorem handler_rejects_of_red {home : List Char} {cfg : ConfigState}
    {cache : AnalysisCache} {rows : List (Bool × String)}
    (h : ∃ row ∈ rows, row.1 = true ∧
      (get_safety_info home cfg cache row.2.data).safety = "red") :
    simple_delete_selected_handler home cfg cache rows =
      .rejected (collect_unsafe_items (collect_selected home cfg cache rows)) := by
  obtain ⟨⟨checked, p⟩, hmem, hck, hred⟩ := h
  subst hck
  have hsel : (p, (get_safety_info home cfg cache p.data).safety) ∈
      collect_selected home cfg cache rows := mem_collect_selected hmem
  rw [hred] at hsel
  have hunsafe : p ∈ collect_unsafe_items (collect_selected home cfg cache rows) :=
    mem_collect_unsafe_items hsel
  simp [simple_delete_selected_handler, isEmpty_false_of_mem hsel,
    isEmpty_false_of_mem hunsafe]

/-- Every element of an insertion is the inserted one or an original one. -/
theorem mem_insertDesc {x z : ScanEntry} {l : List ScanEntry}
    (h : z ∈ insertDesc x l) : z = x ∨ z ∈ l := by
  induction l with
  | nil => simpa [insertDesc] using h
  | cons y ys ih =>
    unfold insertDesc at h
    by_cases hgt : x.size > y.size
    · rw [if_pos hgt] at h
      rcases List.mem_cons.mp h with h1 | h1
      · exact Or.inl h1
      · exact Or.inr h1
    · rw [if_neg hgt] at h
      rcases List.mem_cons.mp h with h1 | h1
      · exact Or.inr (h1 ▸ List.mem_cons_self _ _)
      · rcases ih h1 with h2 | h2
        · exact Or.inl h2
        · exact Or.inr (List.mem_cons_of_mem _ h2)

/-- Inserting into a descending list keeps it descending. -/
theorem pairwise_insertDesc {x : ScanEntry} {l : List ScanEntry}
    (h : l.Pairwise (fun a b => b.size ≤ a.size)) :
    (insertDesc x l).Pairwise (fun a b => b.size ≤ a.size) := by
  induction l with
  | nil => simp [insertDesc]
  | cons y ys ih =>
    rcases List.pairwise_cons.mp h with ⟨hy, hys⟩
    unfold insertDesc
    by_cases hgt : x.size > y.size
    · rw [if_pos hgt]
      refine List.pairwise_cons.mpr ⟨?_, h⟩
      intro z hz
      rcases List.mem_cons.mp hz with hz1 | hz1
      · subst hz1
        exact Nat.le_of_lt hgt
      · exact Nat.le_trans (hy z hz1) (Nat.le_of_lt hgt)
    · rw [if_neg hgt]
      refine List.pairwise_cons.mpr ⟨?_, ih hys⟩
      intro z hz
      rcases mem_insertDesc hz with hz | hz
      · subst hz
        exact Nat.le_of_not_lt hgt
      · exact hy z hz

/-- The fold underlying sortBySizeDesc preserves descending order of the
accumulator. -/
theorem pairwise_foldl_insertDesc (entries : List ScanEntry) :
    ∀ acc : List ScanEntry, acc.Pairwise (fun a b => b.size ≤ a.size) →
      (entries.foldl (fun a x => insertDesc x a) acc).Pairwise
        (fun a b => b.size ≤ a.size) := by
  induction entries with
  | nil => intro acc h; simpa using h
  | cons e rest ih =>
    intro acc h
    exact ih (insertDesc e acc) (pairwise_insertDesc h)

/-- Every scan result ordering is descending by size. -/
theorem pairwise_sortBySizeDesc (entries : List ScanEntry) :
    (sortBySizeDesc entries).Pairwise (fun a b => b.size ≤ a.size) :=
  pairwise_foldl_insertDesc entries [] (by simp)

/-- Members of the sorting fold come from the accumulator or the input. -/
theorem mem_foldl_insertDesc {z : ScanEntry} (entries : List ScanEntry) :
    ∀ acc : List ScanEntry,
      z ∈ entries.foldl (fun a x => insertDesc x a) acc → z ∈ acc ∨ z ∈ entries := by
  induction entries with
  | nil => intro acc h; exact Or.inl h
  | cons e rest ih =>
    intro acc h
    rcases ih (insertDesc e acc) h with h | h
    · rcases mem_insertDesc h with h | h
      · exact Or.inr (h ▸ List.mem_cons_self _ _)
      · exact Or.inl h
    · exact Or.inr (List.mem_cons_of_mem _ h)

/-- Members of a sorted scan result come from the unsorted results. -/
theorem mem_sortBySizeDesc {z : ScanEntry} {entries : List ScanEntry}
    (h : z ∈ sortBySizeDesc entries) : z ∈ entries := by
  rcases mem_foldl_insertDesc entries [] h with h | h
  · cases h
  · exact h

/-- The deletion loop bumps exactly one counter and records exactly one
message per item, starting from any accumulated outcome. -/
theorem perform_deletion_loop_counts (delFails : String → Bool)
    (items : List (String × String)) :
    ∀ st : DeletionOutcome,
      (perform_deletion_loop delFails st items).deleted_count +
          (perform_deletion_loop delFails st items).error_count =
        st.deleted_count + st.error_count + items.length ∧
      (perform_deletion_loop delFails st items).deletion_results.length =
        st.deletion_results.length + items.length := by
  induction items with
  | nil => intro st; simp [perform_deletion_loop]
  | cons item rest ih =>
    intro st
    unfold perform_deletion_loop
    by_cases hf : delFails item.1
    · rw [if_pos hf]
      rcases ih { st with
        error_count := st.error_count + 1,
        deletion_results := st.deletion_results ++
          ["✗ Failed to delete " ++ String.mk (pyBasename item.1.data)] } with ⟨h1, h2⟩
      constructor
      · rw [h1]; simp; omega
      · rw [h2]; simp; omega
    · rw [if_neg hf]
      rcases ih { st with
        fs := rmtree_or_remove st.fs item.1,
        deleted_count := st.deleted_count + 1,
        deletion_results := st.deletion_results ++
          ["✓ Deleted: " ++ String.mk (pyBasename item.1.data)] } with ⟨h1, h2⟩
      constructor
      · rw [h1]; simp; omega
      · rw [h2]; simp; omega

/-- A dict assignment grows the store by at most one entry. -/
theorem dictInsert_length_le {κ α : Type} [BEq κ] (m : List (κ × α)) (k : κ) (v : α) :
    (dictInsert m k v).length ≤ m.length + 1 := by
  unfold dictInsert
  by_cases hp : m.any (fun p => p.1 == k)
  · rw [if_pos hp, List.length_map]
    exact Nat.le_succ _
  · rw [if_neg hp, List.length_append]
    simp

/-- The gemini client makes at most one provider call. -/
theorem analyze_with_gemini_calls (cfg : ConfigState) (avail : AIAvail)
    (callOutcome : ProviderResult) :
    (analyze_with_gemini cfg avail callOutcome).2 ≤ 1 := by
  unfold analyze_with_gemini
  split
  · simp
  · split
    · simp
    · simp

/-- The openai client makes at most one provider call. -/
theorem analyze_with_openai_calls (cfg : ConfigState) (avail : AIAvail)
    (callOutcome : ProviderResult) :
    (analyze_with_openai cfg avail callOutcome).2 ≤ 1 := by
  unfold analyze_with_openai
  split
  · simp
  · split
    · simp
    · simp

/-- The try block makes at most one provider call. -/
theorem ai_try_block_calls (cfg : ConfigState) (avail : AIAvail)
    (callOutcomes : Nat → ProviderResult) (normalized : List Char) :
    (ai_try_block cfg avail callOutcomes normalized).2 ≤ 1 := by
  simp only [ai_try_block]
  split
  · exact analyze_with_gemini_calls cfg avail (callOutcomes 0)
  · split
    · exact analyze_with_openai_calls cfg avail (callOutcomes 0)
    · simp

/-- On a cache miss with no forced provider, ai_analyze_path reduces to
the disabled check, the key check and the try block. -/
theorem ai_analyze_path_eq (home : List Char) (cfg : ConfigState) (avail : AIAvail)
    (callOutcomes : Nat → ProviderResult) (cache : AnalysisCache) (path : List Char)
    (hmiss : get_cached_analysis cfg cache (normalize_path home path) = none) :
    ai_analyze_path home cfg avail callOutcomes cache path none =
      if !cfg.enable_ai_analysis then
        ⟨fallback_heuristic_analysis (normalize_path home path), cache, 0⟩
      else
        let api_key :=
          if cfg.preferred_ai_provider == "gemini" then cfg.gemini_api_key
          else if cfg.preferred_ai_provider == "openai" then cfg.openai_api_key
          else ""
        if api_key == "" || pyStrip api_key.data == [] then
          ⟨fallback_heuristic_analysis (normalize_path home path), cache, 0⟩
        else
          match ai_try_block cfg avail callOutcomes (normalize_path home path) with
          | (.ok result, calls) =>
            ⟨result, cache_analysis cfg cache (normalize_path home path) result, calls⟩
          | (.error _, calls) =>
            ⟨fallback_heuristic_analysis (normalize_path home path), cache, calls⟩ := by
  unfold ai_analyze_path
  simp only [Option.isNone_none, if_true, hmiss, Option.getD_none, Bool.true_and]

/-- With AI analysis disabled and no forced provider, a cache miss is
answered with the uncached heuristic fallback and no provider call. -/
theorem ai_analyze_disabled (home : List Char) (cfg : ConfigState) (avail : AIAvail)
    (callOutcomes : Nat → ProviderResult) (cache : AnalysisCache) (path : List Char)
    (hmiss : get_cached_analysis cfg cache (normalize_path home path) = none)
    (hdis : cfg.enable_ai_analysis = false) :
    ai_analyze_path home cfg avail callOutcomes cache path none
      = ⟨fallback_heuristic_analysis (normalize_path home path), cache, 0⟩ := by
  rw [ai_analyze_path_eq home cfg avail callOutcomes cache path hmiss]
  simp [hdis]

/-- With AI analysis enabled, no forced provider and a blank preferred
credential, a cache miss is answered with the uncached heuristic fallback
and no provider call. -/
theorem ai_analyze_missing_key (home : List Char) (cfg : ConfigState) (avail : AIAvail)
    (callOutcomes : Nat → ProviderResult) (cache : AnalysisCache) (path : List Char)
    (hmiss : get_cached_analysis cfg cache (normalize_path home path) = none)
    (hen : cfg.enable_ai_analysis = true)
    (hkey : preferred_key_blank cfg = true) :
    ai_analyze_path home cfg avail callOutcomes cache path none
      = ⟨fallback_heuristic_analysis (normalize_path home path), cache, 0⟩ := by
  simp only [preferred_key_blank, Bool.or_eq_true, beq_iff_eq] at hkey
  rw [ai_analyze_path_eq home cfg avail callOutcomes cache path hmiss]
  simp [hen, hkey]

/-- With AI analysis enabled, no forced provider, a non-blank preferred
credential and a try block that raises, a cache miss is answered with the
heuristic fallback and the cache is left exactly unchanged. -/
theorem ai_analyze_try_error (home : List Char) (cfg : ConfigState) (avail : AIAvail)
    (callOutcomes : Nat → ProviderResult) (cache : AnalysisCache) (path : List Char)
    (err : Unit) (calls : Nat)
    (hmiss : get_cached_analysis cfg cache (normalize_path home path) = none)
    (hen : cfg.enable_ai_analysis = true)
    (hkey : preferred_key_blank cfg = false)
    (htry : ai_try_block cfg avail callOutcomes (normalize_path home path)
      = (.error err, calls)) :
    ai_analyze_path home cfg avail callOutcomes cache path none
      = ⟨fallback_heuristic_analysis (normalize_path home path), cache, calls⟩ := by
  simp only [preferred_key_blank, Bool.or_eq_false_iff, beq_eq_false_iff_ne,
    ne_eq, beq_iff_eq] at hkey
  rw [ai_analyze_path_eq home cfg avail callOutcomes cache path hmiss]
  simp [hen, hkey.1, hkey.2, htry]

/-- With AI analysis enabled, no forced provider, a non-blank preferred
credential and a try block that returns a result, a cache miss is answered
with that result after persisting it through cache_analysis. -/
theorem ai_analyze_try_ok (home : List Char) (cfg : ConfigState) (avail : AIAvail)
    (callOutcomes : Nat → ProviderResult) (cache : AnalysisCache) (path : List Char)
    (result : SafetyInfo) (calls : Nat)
    (hmiss : get_cached_analysis cfg cache (normalize_path home path) = none)
    (hen : cfg.enable_ai_analysis = true)
    (hkey : preferred_key_blank cfg = false)
    (htry : ai_try_block cfg avail callOutcomes (normalize_path home path)
      = (.ok result, calls)) :
    ai_analyze_path home cfg avail callOutcomes cache path none
      = ⟨result, cache_analysis cfg cache (normalize_path home path) result, calls⟩ := by
  simp only [preferred_key_blank, Bool.or_eq_false_iff, beq_eq_false_iff_ne,
    ne_eq, beq_iff_eq] at hkey
  rw [ai_analyze_path_eq home cfg avail callOutcomes cache path hmiss]
  simp [hen, hkey.1, hkey.2, htry]

/-- With the preferred provider gemini, its client available and a
non-blank key, ai_analyze_path on a cache miss is decided by the single
validated provider call: a valid response is returned and cached, anything
else is answered with the uncached heuristic fallback. -/
theorem ai_analyze_gemini_branch (home : List Char) (cfg : ConfigState) (avail : AIAvail)
    (callOutcomes : Nat → ProviderResult) (cache : AnalysisCache) (path : List Char)
    (hmiss : get_cached_analysis cfg cache (normalize_path home path) = none)
    (hen : cfg.enable_ai_analysis = true)
    (hprov : cfg.preferred_ai_provider = "gemini")
    (hav : avail.gemini = true)
    (hkey : (cfg.gemini_api_key == "" || pyStrip cfg.gemini_api_key.data == []) = false) :
    ai_analyze_path home cfg avail callOutcomes cache path none =
      match validate_ai_response (callOutcomes 0) with
      | .ok result =>
        ⟨result, cache_analysis cfg cache (normalize_path home path) result, 1⟩
      | .error _ =>
        ⟨fallback_heuristic_analysis (normalize_path home path), cache, 1⟩ := by
  have hk1 : (cfg.gemini_api_key == "") = false := by
    rcases Bool.or_eq_false_iff.mp hkey with ⟨h1, _⟩
    exact h1
  have hk2 : ¬ pyStrip cfg.gemini_api_key.data = [] := by
    rcases Bool.or_eq_false_iff.mp hkey with ⟨_, h2⟩
    simpa using h2
  rw [ai_analyze_path_eq home cfg avail callOutcomes cache path hmiss]
  simp only [hen, hprov, hav, ai_try_block, analyze_with_gemini,
    Bool.not_true, Bool.false_eq_true, if_false,
    show (("gemini" : String) == "gemini") = true from rfl, if_true,
    Bool.and_self, hkey, hk1]
  cases hv : validate_ai_response (callOutcomes 0) with
  | ok v => simp [hk2]
  | error e => simp [hk2]

/-! ## Claim theorems -/

/-- Claim C1, counterexample: on the path of the main login keychain, with
no cached verdict, several rules match the normalised path but
get_safety_info returns the verdict of the first matching rule in
insertion order (the orange whole-Library rule), not the verdict of the
matching rule with the longest non-wildcard literal lead (the red
login-keychain rule), so the claimed most-specific overlap policy is
false of the code. -/
theorem C1_counterexample :
    globMatch (normalize_path "/Users/u".data "~/Library/*".data)
        (normalize_path "/Users/u".data "~/Library/Keychains/login.keychain".data) = true
  ∧ globMatch (normalize_path "/Users/u".data "~/Library/Keychains/login.keychain*".data)
        (normalize_path "/Users/u".data "~/Library/Keychains/login.keychain".data) = true
  ∧ get_safety_info "/Users/u".data ⟨"", "", "gemini", true, true⟩ []
        "~/Library/Keychains/login.keychain".data
      = ⟨"orange", "Contains important user settings and data. Be very careful."⟩
  ∧ specMostSpecificVerdict "/Users/u".data "~/Library/Keychains/login.keychain".data
      = some ⟨"red", "Main user keychain. Contains all saved passwords. Do not delete."⟩
  ∧ ("orange" : String) ≠ "red" := by
  refine ⟨by decide, by decide, by decide, by decide, by decide⟩

/-- Claim C1, amended: when no cached verdict exists, classify returns the
verdict of the first rule in PREDEFINED_RULES insertion order whose
normalised pattern matches the normalised path (grey if none matches);
insertion order, not pattern specificity, resolves overlaps.  The specific
example of the claim still holds, because the green Caches rule precedes
the orange Library rule in insertion order. -/
theorem C1_amended :
    (∀ (home : List Char) (cfg : ConfigState) (path : List Char),
      get_safety_info home cfg [] path =
        match PREDEFINED_RULES.find?
            (fun rule => globMatch (normalize_path home rule.1.data)
              (normalize_path home path)) with
        | some rule => rule.2
        | none => ⟨"grey", "Safety level unknown. Click AI icon for analysis."⟩)
  ∧ get_safety_info "/Users/u".data ⟨"", "", "gemini", true, true⟩ []
        "~/Library/Caches/App/x".data
      = ⟨"green", "Application cache files. Generally safe to delete."⟩ := by
  constructor
  · intro home cfg path
    unfold get_safety_info get_cached_analysis
    simp only [dictGet, ite_self]
  · decide

/-- Claim C3, counterexample: in the spec scenario the symbolic link child
is listed as a non-directory and sized through os.path.getsize, which
follows the link, so it contributes its target size of one hundred bytes
rather than zero and sorts first; and in a second scenario two same-size
files keep their listing order under the stable sort, rather than being
re-ordered by path.  The claimed output order is therefore false of the
code on the spec's own example. -/
theorem C3_counterexample :
    scan_directory_thread
        [("a", .file 10), ("b", .dir [("c", .file 5)]), ("s", .symlink 100)]
        (fun _ => false) (fun _ => false) none false [] "/tmp/d"
      = (some [⟨"s", 100, false⟩, ⟨"a", 10, false⟩, ⟨"b", 5, true⟩],
         [("/tmp/d", [⟨"s", 100, false⟩, ⟨"a", 10, false⟩, ⟨"b", 5, true⟩])])
  ∧ (some [⟨"s", 100, false⟩, ⟨"a", 10, false⟩, ⟨"b", 5, true⟩] :
        Option (List ScanEntry))
      ≠ some [⟨"a", 10, false⟩, ⟨"b", 5, true⟩, ⟨"s", 0, false⟩]
  ∧ (scan_directory_thread [("z", .file 10), ("a", .file 10)]
        (fun _ => false) (fun _ => false) none false [] "/tmp/e").1
      = some [⟨"z", 10, false⟩, ⟨"a", 10, false⟩] := by
  refine ⟨by decide, by decide, by decide⟩

/-- Claim C3, amended: a child that is itself a symbolic link contributes
the stat size of its target (os.path.getsize follows links; only symbolic
links encountered inside a directory walk are excluded from the sum), and
entries are sorted descending by size with ties keeping the listing order
of the stable sort, not re-ordered by path.  On the spec scenario the scan
therefore returns the link first with its target's hundred bytes; and
every scan ordering is descending by size. -/
theorem C3_amended :
    scan_directory_thread
        [("a", .file 10), ("b", .dir [("c", .file 5)]), ("s", .symlink 100)]
        (fun _ => false) (fun _ => false) none false [] "/tmp/d"
      = (some [⟨"s", 100, false⟩, ⟨"a", 10, false⟩, ⟨"b", 5, true⟩],
         [("/tmp/d", [⟨"s", 100, false⟩, ⟨"a", 10, false⟩, ⟨"b", 5, true⟩])])
  ∧ (∀ name targetSize,
      get_size_threaded false false name (.symlink targetSize)
        = some ⟨name, targetSize, false⟩)
  ∧ (∀ entries : List ScanEntry,
      (sortBySizeDesc entries).Pairwise (fun x y => y.size ≤ x.size))
  ∧ (scan_directory_thread [("z", .file 10), ("a", .file 10)]
        (fun _ => false) (fun _ => false) none false [] "/tmp/e").1
      = some [⟨"z", 10, false⟩, ⟨"a", 10, false⟩] := by
  refine ⟨by decide, fun name targetSize => rfl, pairwise_sortBySizeDesc, by decide⟩

set_option maxRecDepth 20000 in
/-- Claim C5: the directory cache never exceeds fifty entries after a
completed insertion (insert then trim), eviction removes the ten oldest
entries at once, and inserting fifty-five distinct directory results into
an empty cache leaves exactly the forty-five most recent resident, the ten
earliest-inserted keys being exactly the absent ones. -/
theorem C5_cache_fifo :
    (∀ (cache : List (String × List ScanEntry)) (k : String) (v : List ScanEntry),
      cache.length ≤ MAX_CACHE_SIZE →
        (cache_scan_result cache k v).length ≤ MAX_CACHE_SIZE)
  ∧ ((((List.range 55).map (fun n => toString n)).foldl
        (fun c k => cache_scan_result c k ([] : List ScanEntry)) []).map Prod.fst
      = ((List.range 55).map (fun n => toString n)).drop 10)
  ∧ (((List.range 55).map (fun n => toString n)).foldl
        (fun c k => cache_scan_result c k ([] : List ScanEntry)) []).length = 45 := by
  refine ⟨?_, ?_, ?_⟩
  · intro cache k v h
    unfold cache_scan_result manage_cache
    have hins : (dictInsert cache k v).length ≤ MAX_CACHE_SIZE + 1 :=
      Nat.le_trans (dictInsert_length_le cache k v) (Nat.add_le_add_right h 1)
    by_cases hgt : (dictInsert cache k v).length > MAX_CACHE_SIZE
    · rw [if_pos hgt, List.length_drop]
      unfold MAX_CACHE_SIZE at hins ⊢
      omega
    · rw [if_neg hgt]
      exact Nat.le_of_not_lt hgt
  · decide
  · decide

/-- Claim C8: perform_deletion attempts every item of the batch
independently, records one message per item, bumps exactly one of the two
counters per item so that deleted plus errors equals the batch size, and a
failure leaves later attempts unaffected; in the two-item example the
deletable path is removed, the erroring path survives, and the counts are
one and one. -/
theorem C8_independent_deletion :
    (∀ (delFails : String → Bool) (fs : List String)
        (items : List (String × String)),
      (perform_deletion delFails fs items).deleted_count +
          (perform_deletion delFails fs items).error_count = items.length
      ∧ (perform_deletion delFails fs items).deletion_results.length = items.length)
  ∧ perform_deletion (fun p => p == "/d/locked") ["/d/green.log", "/d/locked"]
        [("/d/green.log", "green"), ("/d/locked", "orange")]
      = ⟨["/d/locked"], 1, 1,
         ["✓ Deleted: green.log", "✗ Failed to delete locked"]⟩ := by
  constructor
  · intro delFails fs items
    have h := perform_deletion_loop_counts delFails items ⟨fs, 0, 0, []⟩
    simpa [perform_deletion] using h
  · decide

/-- Claim C10: the heuristic fallback classifier is total and only ever
returns the green, orange or red tier, never grey; its keyword groups are
tested in a fixed order with the safe group first, so any base name
containing a safe keyword is green even when it also contains a danger
keyword, as the system_cache example shows. -/
theorem C10_heuristic_total :
    (∀ path : List Char,
      (fallback_heuristic_analysis path).safety = "green"
      ∨ (fallback_heuristic_analysis path).safety = "orange"
      ∨ (fallback_heuristic_analysis path).safety = "red")
  ∧ (∀ path : List Char,
      safe_patterns.any (fun pat => containsSub pat.data (lowerL (pyBasename path)))
          = true →
        (fallback_heuristic_analysis path).safety = "green")
  ∧ (fallback_heuristic_analysis "/x/system_cache".data).safety = "green"
  ∧ containsSub "cache".data (lowerL (pyBasename "/x/system_cache".data)) = true
  ∧ containsSub "system".data (lowerL (pyBasename "/x/system_cache".data)) = true := by
  refine ⟨?_, ?_, by decide, by decide, by decide⟩
  · intro path
    simp only [fallback_heuristic_analysis]
    split
    · exact Or.inl rfl
    · split
      · exact Or.inl rfl
      · split
        · exact Or.inr (Or.inl rfl)
        · split
          · exact Or.inr (Or.inr rfl)
          · exact Or.inr (Or.inl rfl)
  · intro path h
    simp [fallback_heuristic_analysis, h]

/-- Claim C10 witness: the safe-group test fires on the system_cache base
name and the theorem then reports green. -/
theorem C10_witness :
    (fallback_heuristic_analysis "/x/system_cache".data).safety = "green" :=
  C10_heuristic_total.2.1 "/x/system_cache".data (by decide)

/-- Claim C5 witness: a one-entry cache is within capacity and stays
within capacity after an insertion. -/
theorem C5_witness :
    (cache_scan_result [("a", ([] : List ScanEntry))] "b" []).length ≤ MAX_CACHE_SIZE :=
  C5_cache_fifo.1 [("a", [])] "b" [] (by decide)

/-- Claim C2: whenever any checked row of the batch classifies red through
the cache/rule lookup, the whole batch is rejected, the rejection carries
the path of every checked red row, the filesystem is untouched and
perform_deletion never runs (the flow records no deletion). -/
theorem C2_gate_rejects_red (home : List Char) (cfg : ConfigState)
    (cache : AnalysisCache) (rows : List (Bool × String)) (fs : List String)
    (delFails : String → Bool) (userConfirms : Bool)
    (h : ∃ row ∈ rows, row.1 = true ∧
      (get_safety_info home cfg cache row.2.data).safety = "red") :
    delete_selected_flow home cfg cache rows fs delFails userConfirms
      = ⟨.rejected (collect_unsafe_items (collect_selected home cfg cache rows)),
         fs, 0, 0, false⟩
  ∧ ∀ p : String, (true, p) ∈ rows →
      (get_safety_info home cfg cache p.data).safety = "red" →
      p ∈ collect_unsafe_items (collect_selected home cfg cache rows) := by
  constructor
  · unfold delete_selected_flow
    rw [handler_rejects_of_red h]
  · intro p hp hred
    have hsel : (p, (get_safety_info home cfg cache p.data).safety) ∈
        collect_selected home cfg cache rows := mem_collect_selected hp
    rw [hred] at hsel
    exact mem_collect_unsafe_items hsel

/-- Claim C2 witness: a batch of a green temporary file and a red system
path is rejected carrying exactly the red path, with the filesystem
untouched and no deletion performed. -/
theorem C2_witness :
    delete_selected_flow "/Users/u".data ⟨"", "", "gemini", true, true⟩ []
        [(true, "/tmp/x"), (true, "/System/foo")]
        ["/tmp/x", "/System/foo"] (fun _ => false) true
      = ⟨.rejected ["/System/foo"], ["/tmp/x", "/System/foo"], 0, 0, false⟩ := by
  have h := (C2_gate_rejects_red "/Users/u".data ⟨"", "", "gemini", true, true⟩ []
      [(true, "/tmp/x"), (true, "/System/foo")] ["/tmp/x", "/System/foo"]
      (fun _ => false) true
      ⟨(true, "/System/foo"), by decide, rfl, by decide⟩).1
  rw [h]
  decide

/-- Claim C9: with the cancellation flag set at the final check the scan
returns no result and leaves the directory cache exactly as it was; a
worker task that observed cancellation produces no entry at all (its
partial sum is discarded, not reported as zero); and every entry of a
completed scan stems from a task that did not observe cancellation. -/
theorem C9_cancelled_scan :
    (∀ (children : List (String × FSNode)) (taskCancelled taskAccessErr : Nat → Bool)
        (loopBreakAt : Option Nat) (cache : List (String × List ScanEntry))
        (selected_path : String),
      scan_directory_thread children taskCancelled taskAccessErr loopBreakAt true
          cache selected_path = (none, cache))
  ∧ (∀ (accessErr : Bool) (name : String) (node : FSNode),
      get_size_threaded true accessErr name node = none)
  ∧ (∀ (children : List (String × FSNode)) (taskCancelled taskAccessErr : Nat → Bool)
        (loopBreakAt : Option Nat) (cache : List (String × List ScanEntry))
        (selected_path : String) (entries : List ScanEntry) (e : ScanEntry),
      (scan_directory_thread children taskCancelled taskAccessErr loopBreakAt false
          cache selected_path).1 = some entries →
      e ∈ entries →
      ∃ i child, (i, child) ∈ children.enum ∧ taskCancelled i = false ∧
        get_size_threaded (taskCancelled i) (taskAccessErr i) child.1 child.2
          = some e) := by
  refine ⟨fun _ _ _ _ _ _ => rfl, fun _ _ _ => rfl, ?_⟩
  intro children tc ae bk cache sp entries e hscan hmem
  unfold scan_directory_thread at hscan
  simp only [Bool.false_eq_true, if_false, Option.some.injEq] at hscan
  rw [← hscan] at hmem
  have hres := mem_sortBySizeDesc hmem
  rcases List.mem_filterMap.mp hres with ⟨p, hp, hsome⟩
  refine ⟨p.1, p.2, List.take_subset _ _ hp, ?_, ?_⟩
  · by_cases hct : tc p.1
    · rw [hct] at hsome
      cases hsome
    · simpa using hct
  · exact hsome

/-- Claim C9 witness: with the first of two tasks observing cancellation
but the scan completing, the single surviving entry stems from the second,
non-cancelled task. -/
theorem C9_witness :
    ∃ i child,
      (i, child) ∈ ([("a", FSNode.file 1), ("k", FSNode.file 2)]).enum
      ∧ (fun j : Nat => j == 0) i = false
      ∧ get_size_threaded ((fun j : Nat => j == 0) i) ((fun _ : Nat => false) i)
          child.1 child.2 = some ⟨"k", 2, false⟩ :=
  C9_cancelled_scan.2.2 [("a", .file 1), ("k", .file 2)] (fun j => j == 0)
    (fun _ => false) none [] "/tmp/d" [⟨"k", 2, false⟩] ⟨"k", 2, false⟩
    (by decide) (by decide)

/-- Claim C4, counterexample: with assist disabled, ai_analyze_path
returns the heuristic verdict but persists nothing — the cache stays
empty — so a later classify of the same path is answered grey from the
rule table, not from the cache. -/
theorem C4_counterexample :
    ai_analyze_path "/Users/u".data ⟨"k", "", "gemini", false, true⟩ ⟨true, true⟩
        (fun _ => .failure) [] "/x/mystery".data none
      = ⟨fallback_heuristic_analysis "/x/mystery".data, [], 0⟩
  ∧ (fallback_heuristic_analysis "/x/mystery".data).safety = "orange"
  ∧ (get_safety_info "/Users/u".data ⟨"k", "", "gemini", false, true⟩ []
        "/x/mystery".data).safety = "grey" := by
  refine ⟨by decide, by decide, by decide⟩

/-- Claim C4, amended: a verdict is persisted only when the try block
produced it — an accepted AI response, or the heuristic verdict of the
unavailable-provider branch — and only with result caching enabled; the
assist-disabled, missing-credential and provider-failure branches return
the heuristic verdict without touching the cache. -/
theorem C4_amended (home : List Char) (cfg : ConfigState) (avail : AIAvail)
    (callOutcomes : Nat → ProviderResult) (cache : AnalysisCache) (path : List Char)
    (hmiss : get_cached_analysis cfg cache (normalize_path home path) = none) :
    (cfg.enable_ai_analysis = false →
      ai_analyze_path home cfg avail callOutcomes cache path none
        = ⟨fallback_heuristic_analysis (normalize_path home path), cache, 0⟩)
  ∧ (cfg.enable_ai_analysis = true → preferred_key_blank cfg = true →
      ai_analyze_path home cfg avail callOutcomes cache path none
        = ⟨fallback_heuristic_analysis (normalize_path home path), cache, 0⟩)
  ∧ (∀ (err : Unit) (calls : Nat),
      cfg.enable_ai_analysis = true → preferred_key_blank cfg = false →
      ai_try_block cfg avail callOutcomes (normalize_path home path)
          = (.error err, calls) →
      ai_analyze_path home cfg avail callOutcomes cache path none
        = ⟨fallback_heuristic_analysis (normalize_path home path), cache, calls⟩)
  ∧ (∀ (result : SafetyInfo) (calls : Nat),
      cfg.enable_ai_analysis = true → preferred_key_blank cfg = false →
      ai_try_block cfg avail callOutcomes (normalize_path home path)
          = (.ok result, calls) →
      ai_analyze_path home cfg avail callOutcomes cache path none
        = ⟨result, cache_analysis cfg cache (normalize_path home path) result,
           calls⟩) := by
  refine ⟨?_, ?_, ?_, ?_⟩
  · intro hdis
    exact ai_analyze_disabled home cfg avail callOutcomes cache path hmiss hdis
  · intro hen hkey
    exact ai_analyze_missing_key home cfg avail callOutcomes cache path hmiss hen hkey
  · intro err calls hen hkey htry
    exact ai_analyze_try_error home cfg avail callOutcomes cache path err calls
      hmiss hen hkey htry
  · intro result calls hen hkey htry
    exact ai_analyze_try_ok home cfg avail callOutcomes cache path result calls
      hmiss hen hkey htry

/-- Claim C4 witness: the assist-disabled branch leaves an empty cache
empty. -/
theorem C4_witness :
    ai_analyze_path "/Users/u".data ⟨"k", "", "gemini", false, true⟩ ⟨true, true⟩
        (fun _ => .failure) [] "/x/mystery".data none
      = ⟨fallback_heuristic_analysis
          (normalize_path "/Users/u".data "/x/mystery".data), [], 0⟩ :=
  (C4_amended "/Users/u".data ⟨"k", "", "gemini", false, true⟩ ⟨true, true⟩
    (fun _ => .failure) [] "/x/mystery".data (by decide)).1 rfl

/-- Claim C6, counterexample: a provider response whose tier value lies
outside the three allowed tiers but which is a dict with both keys passes
the validation, is returned with the AI prefix and is cached as-is,
instead of being treated as a failure and answered heuristically. -/
theorem C6_counterexample :
    ai_analyze_path "/Users/u".data ⟨"k", "", "gemini", true, true⟩ ⟨true, true⟩
        (fun _ => .parsed true (some "purple") (some "r")) [] "/x/mystery".data none
      = ⟨⟨"purple", "AI Analysis: r"⟩,
         [("/x/mystery".data, ⟨"purple", "AI Analysis: r"⟩)], 1⟩
  ∧ ("purple" ∉ (["green", "orange", "red"] : List String))
  ∧ (⟨"purple", "AI Analysis: r"⟩ : SafetyInfo)
      ≠ fallback_heuristic_analysis "/x/mystery".data := by
  refine ⟨by decide, by decide, by decide⟩

/-- Claim C6, amended: validation accepts exactly the responses that are a
dict containing both a safety and a reason key — the tier value itself is
not checked, so an out-of-range tier is accepted (and cached) as-is; any
response failing that shape is treated as a failure and answered with the
uncached heuristic fallback, never propagated as a fatal error. -/
theorem C6_amended :
    (∀ s r : String, validate_ai_response (.parsed true (some s) (some r))
        = .ok ⟨s, "AI Analysis: " ++ r⟩)
  ∧ (∀ (isDict : Bool) (safetyVal reasonVal : Option String),
      validate_ai_response (.parsed isDict safetyVal reasonVal) = .error ()
        ↔ (isDict = false ∨ safetyVal = none ∨ reasonVal = none))
  ∧ (∀ (home : List Char) (cfg : ConfigState) (avail : AIAvail)
        (callOutcomes : Nat → ProviderResult) (cache : AnalysisCache)
        (path : List Char),
      get_cached_analysis cfg cache (normalize_path home path) = none →
      cfg.enable_ai_analysis = true →
      cfg.preferred_ai_provider = "gemini" →
      avail.gemini = true →
      (cfg.gemini_api_key == "" || pyStrip cfg.gemini_api_key.data == []) = false →
      validate_ai_response (callOutcomes 0) = .error () →
      ai_analyze_path home cfg avail callOutcomes cache path none
        = ⟨fallback_heuristic_analysis (normalize_path home path), cache, 1⟩) := by
  refine ⟨fun s r => rfl, ?_, ?_⟩
  · intro isDict safetyVal reasonVal
    cases isDict <;> cases safetyVal <;> cases reasonVal <;>
      simp [validate_ai_response]
  · intro home cfg avail callOutcomes cache path hmiss hen hprov hav hkey hfail
    rw [ai_analyze_gemini_branch home cfg avail callOutcomes cache path
      hmiss hen hprov hav hkey, hfail]

/-- Claim C6 witness: a non-dict provider response is answered with the
heuristic fallback after one provider call, with nothing cached. -/
theorem C6_witness :
    ai_analyze_path "/Users/u".data ⟨"k", "", "gemini", true, true⟩ ⟨true, true⟩
        (fun _ => .parsed false none none) [] "/x/mystery".data none
      = ⟨fallback_heuristic_analysis
          (normalize_path "/Users/u".data "/x/mystery".data), [], 1⟩ :=
  C6_amended.2.2 "/Users/u".data ⟨"k", "", "gemini", true, true⟩ ⟨true, true⟩
    (fun _ => .parsed false none none) [] "/x/mystery".data
    (by decide) rfl rfl rfl (by decide) rfl

/-- Claim C7, counterexample: AI_CONFIG declares a retry budget of three
and a ten-second timeout, but the code makes exactly one provider call:
with a provider that fails on the first attempt and would return a valid
green verdict on any later attempt, ai_analyze_path still answers with the
heuristic fallback after a single call, so no retry happens. -/
theorem C7_counterexample :
    ai_analyze_path "/Users/u".data ⟨"k", "", "gemini", true, true⟩ ⟨true, true⟩
        (fun n => if n == 0 then .failure
          else .parsed true (some "green") (some "ok"))
        [] "/x/mystery".data none
      = ⟨fallback_heuristic_analysis "/x/mystery".data, [], 1⟩
  ∧ AI_CONFIG.max_retries = 3
  ∧ AI_CONFIG.timeout = 10
  ∧ validate_ai_response ((fun n => if n == 0 then ProviderResult.failure
        else .parsed true (some "green") (some "ok")) 1)
      = .ok ⟨"green", "AI Analysis: ok"⟩
  ∧ fallback_heuristic_analysis "/x/mystery".data
      ≠ ⟨"green", "AI Analysis: ok"⟩ := by
  refine ⟨by decide, rfl, rfl, rfl, by decide⟩

/-- Claim C7, amended: ai_analyze_path never makes more than one provider
call — the configured retry budget and timeout in AI_CONFIG are never
consulted — and every failure path resolves locally: assist disabled or a
blank credential means the heuristic verdict with no call, a failing
provider call means the heuristic verdict after exactly one call; no
provider error propagates, every branch returns a verdict value. -/
theorem C7_amended :
    (∀ (home : List Char) (cfg : ConfigState) (avail : AIAvail)
        (callOutcomes : Nat → ProviderResult) (cache : AnalysisCache)
        (path : List Char) (force_provider : Option String),
      (ai_analyze_path home cfg avail callOutcomes cache path
          force_provider).providerCalls ≤ 1)
  ∧ AI_CONFIG.max_retries = 3
  ∧ AI_CONFIG.timeout = 10
  ∧ (∀ (home : List Char) (cfg : ConfigState) (avail : AIAvail)
        (callOutcomes : Nat → ProviderResult) (cache : AnalysisCache)
        (path : List Char),
      get_cached_analysis cfg cache (normalize_path home path) = none →
      cfg.enable_ai_analysis = false →
      ai_analyze_path home cfg avail callOutcomes cache path none
        = ⟨fallback_heuristic_analysis (normalize_path home path), cache, 0⟩)
  ∧ (∀ (home : List Char) (cfg : ConfigState) (avail : AIAvail)
        (callOutcomes : Nat → ProviderResult) (cache : AnalysisCache)
        (path : List Char),
      get_cached_analysis cfg cache (normalize_path home path) = none →
      cfg.enable_ai_analysis = true →
      preferred_key_blank cfg = true →
      ai_analyze_path home cfg avail callOutcomes cache path none
        = ⟨fallback_heuristic_analysis (normalize_path home path), cache, 0⟩)
  ∧ (∀ (home : List Char) (cfg : ConfigState) (avail : AIAvail)
        (callOutcomes : Nat → ProviderResult) (cache : AnalysisCache)
        (path : List Char),
      get_cached_analysis cfg cache (normalize_path home path) = none →
      cfg.enable_ai_analysis = true →
      cfg.preferred_ai_provider = "gemini" →
      avail.gemini = true →
      (cfg.gemini_api_key == "" || pyStrip cfg.gemini_api_key.data == []) = false →
      callOutcomes 0 = .failure →
      ai_analyze_path home cfg avail callOutcomes cache path none
        = ⟨fallback_heuristic_analysis (normalize_path home path), cache, 1⟩) := by
  refine ⟨?_, rfl, rfl, ?_, ?_, ?_⟩
  · intro home cfg avail callOutcomes cache path force_provider
    unfold ai_analyze_path
    dsimp only
    repeat' (first | split | dsimp only)
    all_goals
      first
        | simp
        | (rename_i heq
           have hc := ai_try_block_calls cfg avail callOutcomes
             (normalize_path home path)
           rw [heq] at hc
           simpa using hc)
  · intro home cfg avail callOutcomes cache path hmiss hdis
    exact ai_analyze_disabled home cfg avail callOutcomes cache path hmiss hdis
  · intro home cfg avail callOutcomes cache path hmiss hen hblank
    exact ai_analyze_missing_key home cfg avail callOutcomes cache path
      hmiss hen hblank
  · intro home cfg avail callOutcomes cache path hmiss hen hprov hav hkey hfail
    rw [ai_analyze_gemini_branch home cfg avail callOutcomes cache path
      hmiss hen hprov hav hkey, hfail]
    rfl

/-- Claim C7 witness: a failing provider call resolves to the heuristic
verdict after exactly one call. -/
theorem C7_witness :
    ai_analyze_path "/Users/u".data ⟨"k", "", "gemini", true, true⟩ ⟨true, true⟩
        (fun _ => .failure) [] "/x/mystery".data none
      = ⟨fallback_heuristic_analysis
          (normalize_path "/Users/u".data "/x/mystery".data), [], 1⟩ :=
  C7_amended.2.2.2.2.2 "/Users/u".data ⟨"k", "", "gemini", true, true⟩ ⟨true, true⟩
    (fun _ => .failure) [] "/x/mystery".data (by decide) rfl rfl rfl (by decide) rfl

end CoffeeCleaner

